import Mathlib

/-!
Shallow embedding of the metrics resolution engine of the Weather-eval
repository (`backend/app/weather_metrics.py`, with the response shapes of
`backend/app/schemas.py` and the numeric coercions of `backend/app/geo.py`).

Modelling conventions:
* Python floats are modelled as exact rationals (`ℚ`); Python ints as `ℤ`.
* Parsed JSON documents are modelled by the inductive type `Json`
  (the output of `json.loads`); a missing file is `Option.none`.
* Python exceptions raised by `int(...)` / `float(...)` are modelled with
  `Except Unit`; `as_int` / `as_float` from `geo.py` catch them.
* `str(...)` (which never raises) is `pyStr`; its rendering of non-string
  scalars abstracts CPython's exact repr but preserves the property used by
  the code: the result is non-empty for every value except empty strings.
* `dict` objects built by the loaders are association lists with
  insertion-order upsert (`upsert`), exactly CPython's dict semantics.
* The haversine great-circle distance and the H3 cell conversion are
  floating-point/extern library calls; they enter the model as explicit
  function parameters (`dist`, `h3fn`) of the operations that use them.
* `date.today().year` (read inside `_build_yearly_series`) is modelled as an
  explicit parameter `today_year`.
-/

namespace WeatherEval

/-- A parsed JSON value, the result of a successful `json.loads`. -/
inductive Json where
  | null : Json
  | bool (b : Bool) : Json
  | num (q : ℚ) : Json
  | str (s : String) : Json
  | arr (items : List Json) : Json
  | obj (fields : List (String × Json)) : Json

/-- Lookup in a parsed JSON object, i.e. `row.get(key)`; for duplicate keys
`json.loads` keeps the last occurrence, hence `getLast?`. -/
def jget (fields : List (String × Json)) (k : String) : Option Json :=
  ((fields.filter (fun p => p.1 == k)).map (fun p => p.2)).getLast?

/-- Characters removed by Python's `str.strip()`. -/
def isPySpace (c : Char) : Bool :=
  (c == ' ') || (c == '\t') || (c == '\n') || (c == '\r') || (c == '\x0B') || (c == '\x0C')

/-- Python `str.strip()`. -/
def pyStrip (s : String) : String :=
  ⟨((s.data.dropWhile isPySpace).reverse.dropWhile isPySpace).reverse⟩

/-- Decimal digits of a positive natural, most significant first; the fuel
(one unit per digit) keeps the recursion structural. -/
def natDigitsAux : ℕ → ℕ → List Char
  | 0, _ => []
  | fuel + 1, n => if n = 0 then [] else natDigitsAux fuel (n / 10) ++ [Char.ofNat (48 + n % 10)]

/-- Decimal rendering of a natural number (enough fuel for 64 digits). -/
def natToString (n : ℕ) : String :=
  if n = 0 then "0" else ⟨natDigitsAux 64 n⟩

/-- Decimal rendering of an integer, as Python's `str`/`"%d"` produce it. -/
def intToString (i : ℤ) : String :=
  if i < 0 then "-" ++ natToString i.natAbs else natToString i.natAbs

/-- Python `str(...)` applied to a parsed JSON value.  It never raises.  The
rendering of numbers, arrays and objects abstracts CPython's repr; like the
real repr, it returns a non-empty string for every non-string value, which is
the only property the loaders depend on (`if not station_id: continue` etc.). -/
def pyStr : Json → String
  | .null => "None"
  | .bool true => "True"
  | .bool false => "False"
  | .num q => intToString q.num ++ (if q.den = 1 then "" else "/" ++ natToString q.den)
  | .str s => s
  | .arr _ => "[...]"
  | .obj _ => "\x7b...\x7d"

/-- Python `str(x.get(key, ""))` followed by `.strip()`, the idiom used by the
loaders for required string fields. -/
def strField (row : List (String × Json)) (k : String) : String :=
  pyStrip (pyStr ((jget row k).getD (.str "")))

/-- Value of a non-empty list of decimal digit characters; `none` if the list
is empty or contains a non-digit. -/
def digitsVal? (l : List Char) : Option ℕ :=
  if l = [] then none
  else if l.all (fun c => c.isDigit) then
    some (l.foldl (fun a c => a * 10 + (c.toNat - 48)) 0)
  else none

/-- Split an optional leading sign off a character list, returning the sign
as `1` or `-1`. -/
def splitSign : List Char → ℤ × List Char
  | '-' :: r => (-1, r)
  | '+' :: r => (1, r)
  | r => (1, r)

/-- Python `int(s)` on a string: optional sign and decimal digits, with
surrounding whitespace allowed; anything else raises.  (Exotic accepted forms
such as underscores in literals are abstracted away.) -/
def parseIntStr (s : String) : Option ℤ :=
  let (sgn, rest) := splitSign (pyStrip s).data
  (digitsVal? rest).map (fun n => sgn * (n : ℤ))

/-- Python `float(s)` on a string: optional sign, decimal digits with at most
one decimal point, surrounding whitespace allowed; anything else raises.
(Exponent notation and `inf`/`nan` are abstracted away.) -/
def parseFloatStr (s : String) : Option ℚ :=
  let (sgn, rest) := splitSign (pyStrip s).data
  let intPart := rest.takeWhile (fun c => c ≠ '.')
  match rest.drop intPart.length with
  | [] => (digitsVal? intPart).map (fun n => (sgn : ℚ) * (n : ℚ))
  | '.' :: frac =>
      if intPart.isEmpty && frac.isEmpty then none
      else if intPart.all (fun c => c.isDigit) && frac.all (fun c => c.isDigit) then
        some ((sgn : ℚ) *
          ((intPart.foldl (fun a c => a * 10 + (c.toNat - 48)) 0 : ℕ) +
            (frac.foldl (fun a c => a * 10 + (c.toNat - 48)) 0 : ℕ) / (10 : ℚ) ^ frac.length))
      else none
  | _ => none

/-- Truncation of a rational toward zero, Python's `int(float)` conversion. -/
def ratTrunc (q : ℚ) : ℤ :=
  q.num.tdiv (q.den : ℤ)

/-- Python `int(x)` on a parsed JSON value (`TypeError`/`ValueError` is
`Except.error`). -/
def pyIntE : Json → Except Unit ℤ
  | .null => .error ()
  | .bool b => .ok (if b then 1 else 0)
  | .num q => .ok (ratTrunc q)
  | .str s =>
      match parseIntStr s with
      | some n => .ok n
      | none => .error ()
  | .arr _ => .error ()
  | .obj _ => .error ()

/-- Python `float(x)` on a parsed JSON value. -/
def pyFloatE : Json → Except Unit ℚ
  | .null => .error ()
  | .bool b => .ok (if b then 1 else 0)
  | .num q => .ok q
  | .str s =>
      match parseFloatStr s with
      | some q => .ok q
      | none => .error ()
  | .arr _ => .error ()
  | .obj _ => .error ()

/-- The argument fed to `as_int` / `as_float` is `row.get(key)`: `none` models
Python `None` (absent key). -/
def as_int (v : Option Json) : Option ℤ :=
  match v with
  | none => none
  | some j => (pyIntE j).toOption

/-- Lenient float coercion from `geo.py`: `float(value)` with
`TypeError`/`ValueError` caught and turned into `None`. -/
def as_float (v : Option Json) : Option ℚ :=
  match v with
  | none => none
  | some j => (pyFloatE j).toOption

/-- Round-half-to-even of a rational to an integer, the rounding mode of
Python's `round` (floats are modelled as exact rationals, so this is the
rounding of the exact value). -/
def roundHalfEven (x : ℚ) : ℤ :=
  if x - (⌊x⌋ : ℚ) < 1 / 2 then ⌊x⌋
  else if 1 / 2 < x - (⌊x⌋ : ℚ) then ⌊x⌋ + 1
  else if ⌊x⌋ % 2 = 0 then ⌊x⌋ else ⌊x⌋ + 1

/-- Python `round(x, 2)`. -/
def round2 (x : ℚ) : ℚ :=
  (roundHalfEven (100 * x) : ℚ) / 100

/-- Gregorian leap-year rule, as used by `calendar.monthrange` (Python `%` on
ints is floor-mod, which is `Int.emod` for positive moduli). -/
def isLeap (y : ℤ) : Bool :=
  y % 4 = 0 && (y % 100 ≠ 0 || y % 400 = 0)

/-- Number of days `calendar.monthrange(year, month)[1]` reports.  The Python
call raises `IllegalMonthError` outside `1 ≤ month ≤ 12`; this total model is
only used under that hypothesis (queries are validated to it upstream). -/
def days_in_month (year month : ℤ) : ℤ :=
  if month = 2 then (if isLeap year then 29 else 28)
  else if month = 4 ∨ month = 6 ∨ month = 9 ∨ month = 11 then 30
  else 31

/-- Python `range(a, b + 1)` over integers: the years/days iterated by the
series builders. -/
def rangeInt (a b : ℤ) : List ℤ :=
  List.map (fun i : ℕ => a + (i : ℤ)) (List.range (b + 1 - a).toNat)

/-- Zero-padded decimal rendering, Python's `"%0*d"` for non-negative
arguments (the builders only format validated years, months and days). -/
def padNum (width : ℕ) (i : ℤ) : String :=
  let s := intToString i
  if s.length < width then String.mk (List.replicate (width - s.length) '0') ++ s else s

/-- The `f"{year:04d}-{month:02d}-{day:02d}"` date key of the daily series. -/
def date_str (year month day : ℤ) : String :=
  padNum 4 year ++ "-" ++ padNum 2 month ++ "-" ++ padNum 2 day

/-- Insertion (or in-place replacement) into a Python dict modelled as an
association list in insertion order. -/
def upsert {K V : Type} [DecidableEq K] : List (K × V) → K → V → List (K × V)
  | [], k, v => [(k, v)]
  | (k', v') :: rest, k, v =>
      if k' = k then (k, v) :: rest else (k', v') :: upsert rest k v

/-- Python `dict.get(k)` on an `upsert`-built association list. -/
def dget {K V : Type} [DecidableEq K] (m : List (K × V)) (k : K) : Option V :=
  (m.find? (fun p => p.1 = k)).map (fun p => p.2)

/-- Effectful map over a list in the `Except` monad: the loop
`for x in l: out.append(f(x))` where the body may raise. -/
def mapE {α β ε : Type} : List α → (α → Except ε β) → Except ε (List β)
  | [], _ => .ok []
  | a :: rest, f =>
      match f a with
      | .error e => .error e
      | .ok b =>
          match mapE rest f with
          | .error e => .error e
          | .ok bs => .ok (b :: bs)

/-- A weather station from the station index (`weather_metrics.Station`). -/
structure Station where
  station_id : String
  name : String
  lat : ℚ
  lon : ℚ
deriving DecidableEq

/-- The in-memory store (`weather_metrics.MetricsStore`).  The six loaded
indices are Python dicts, modelled as insertion-ordered association lists;
the monthly/yearly lightning indices hold the raw JSON rows, exactly as the
loaders store them.  `idw_power` is the IDW exponent (a float `2.0` in the
source, restricted to a natural exponent since general float powers are
transcendental). -/
structure MetricsStore where
  stations : List Station
  lightning_daily : List ((String × String) × ℤ)
  lightning_monthly : List ((String × ℤ × ℤ) × List (String × Json))
  lightning_yearly : List ((String × ℤ) × List (String × Json))
  cloud_daily : List ((String × String) × ℚ)
  cloud_monthly : List ((String × ℤ × ℤ) × ℚ)
  cloud_yearly : List ((String × ℤ) × ℚ)
  start_year : ℤ
  h3_resolution : ℕ
  bounds : ℚ × ℚ × ℚ × ℚ
  idw_power : ℕ
  idw_max_neighbors : ℕ
  idw_max_distance_km : ℚ

/-- The co-location threshold `1e-9` km of `_idw_cloud_value`. -/
def eps : ℚ := Rat.divInt 1 1000000000

/-- Rectangular bounds check `MetricsStore.is_point_in_bounds`. -/
def is_point_in_bounds (st : MetricsStore) (lat lon : ℚ) : Bool :=
  let (min_lat, max_lat, min_lon, max_lon) := st.bounds
  decide (min_lat ≤ lat) && decide (lat ≤ max_lat) &&
    decide (min_lon ≤ lon) && decide (lon ≤ max_lon)

/-- Stable ascending insertion by distance (second component). -/
def insertSorted (p : Station × ℚ) : List (Station × ℚ) → List (Station × ℚ)
  | [] => [p]
  | q :: rest => if p.2 < q.2 then p :: q :: rest else q :: insertSorted p rest

/-- `MetricsStore._sorted_station_distances`: distance from the query point to
every station, sorted ascending (stable, like Python's `sort`).  The
haversine float computation enters as the abstract `dist` parameter. -/
def sorted_station_distances (st : MetricsStore) (dist : ℚ → ℚ → ℚ → ℚ → ℚ)
    (lat lon : ℚ) : List (Station × ℚ) :=
  (st.stations.map (fun s => (s, dist lat lon s.lat s.lon))).foldl
    (fun acc p => insertSorted p acc) []

/-- Result of the collection loop in `_idw_cloud_value`: either the early
return of a co-located station's value, or the list of collected
(distance, value) pairs. -/
inductive CollectResult where
  | exact (v : ℚ) : CollectResult
  | collected (l : List (ℚ × ℚ)) : CollectResult
deriving DecidableEq

/-- The walk over the ascending station list in `_idw_cloud_value`: stop at
the first station beyond the max distance, skip stations without a value,
return a co-located station's value directly, otherwise collect up to
`idw_max_neighbors` (distance, value) pairs. -/
def idw_collect (st : MetricsStore) (lookup : String → Option ℚ) :
    List (Station × ℚ) → List (ℚ × ℚ) → CollectResult
  | [], acc => .collected acc
  | (station, distance) :: rest, acc =>
      if st.idw_max_distance_km < distance then .collected acc
      else
        match lookup station.station_id with
        | none => idw_collect st lookup rest acc
        | some value =>
            if distance < eps then .exact value
            else
              let acc2 := acc ++ [(distance, value)]
              if st.idw_max_neighbors ≤ acc2.length then .collected acc2
              else idw_collect st lookup rest acc2

/-- `MetricsStore._idw_cloud_value`: inverse-distance-weighted cloud value
over the collected neighbors, `None` when nothing was collected, the raw
station value when one is co-located. -/
def idw_cloud_value (st : MetricsStore) (station_distances : List (Station × ℚ))
    (lookup : String → Option ℚ) : Option ℚ :=
  match idw_collect st lookup station_distances [] with
  | .exact v => some v
  | .collected [] => none
  | .collected collected =>
      let weight_sum := (collected.map (fun p => 1 / p.1 ^ st.idw_power)).sum
      let weighted_value_sum :=
        (collected.map (fun p => 1 / p.1 ^ st.idw_power * p.2)).sum
      some (round2 (weighted_value_sum / weight_sum))

/-- Echoed point info of the response (`schemas.PointInfo`). -/
structure PointInfo where
  lat : ℚ
  lon : ℚ
  h3_r7 : String
deriving DecidableEq

/-- The nearest-station descriptor as constructed in `MetricsStore.query`
(`CloudInterpolationInfo(nearest_station_name=..., nearest_station_distance_km=...)`).
Note: `schemas.py` as committed does not declare this class (it declares
`CloudStationInfo` with different fields); this models the object
`weather_metrics.py` imports, constructs and the repository's test asserts on. -/
structure CloudInterpolationInfo where
  nearest_station_name : String
  nearest_station_distance_km : ℚ
deriving DecidableEq

/-- One daily series entry (`schemas.DayMetric`). -/
structure DayMetric where
  date : String
  cloud_mean_pct : Option ℚ
  lightning_count : ℤ
deriving DecidableEq

/-- One monthly series entry (`schemas.MonthMetric`). -/
structure MonthMetric where
  month : ℤ
  cloud_mean_pct : Option ℚ
  lightning_probability : ℚ
  lightning_count : ℤ
deriving DecidableEq

/-- One yearly series entry (`schemas.YearMetric`). -/
structure YearMetric where
  year : ℤ
  cloud_mean_pct : Option ℚ
  lightning_probability : ℚ
  lightning_count : ℤ
deriving DecidableEq

/-- Daily series wrapper (`schemas.DailyMetrics`). -/
structure DailyMetrics where
  days : List DayMetric
deriving DecidableEq

/-- Monthly series wrapper (`schemas.MonthlyMetrics`). -/
structure MonthlyMetrics where
  months : List MonthMetric
deriving DecidableEq

/-- Yearly series wrapper (`schemas.YearlyMetrics`). -/
structure YearlyMetrics where
  years : List YearMetric
deriving DecidableEq

/-- The query response as constructed in `MetricsStore.query` (field
`cloud_interpolation`; the committed `schemas.py` declares this field as
`cloud_station : CloudStationInfo | None` instead — see the C7 analysis). -/
structure PointMetricsResponse where
  point : PointInfo
  cloud_interpolation : Option CloudInterpolationInfo
  daily : DailyMetrics
  monthly : MonthlyMetrics
  yearly : YearlyMetrics
deriving DecidableEq

/-- One iteration of the daily loop in `MetricsStore._build_daily_series`:
lightning count from the (cell, date) index with default 0, cloud value via
the IDW resolver over the daily cloud index. -/
def daily_entry (st : MetricsStore) (h3_cell : String) (sd : List (Station × ℚ))
    (year month day : ℤ) : DayMetric :=
  let ds := date_str year month day
  ⟨ds,
   idw_cloud_value st sd (fun sid => dget st.cloud_daily (sid, ds)),
   (dget st.lightning_daily (h3_cell, ds)).getD 0⟩

/-- `MetricsStore._build_daily_series`: one entry per day `1 .. days_in_month`. -/
def build_daily_series (st : MetricsStore) (h3_cell : String)
    (sd : List (Station × ℚ)) (year month : ℤ) : List DayMetric :=
  (rangeInt 1 (days_in_month year month)).map (daily_entry st h3_cell sd year month)

/-- One iteration of the monthly loop in `MetricsStore._build_monthly_series`.
The raw lightning row (default `{}`) goes through bare `int(...)` and
`float(...)`, which raise on non-coercible stored values. -/
def monthly_entry (st : MetricsStore) (h3_cell : String) (sd : List (Station × ℚ))
    (year month : ℤ) : Except Unit MonthMetric :=
  let lightning := (dget st.lightning_monthly (h3_cell, year, month)).getD []
  match pyIntE ((jget lightning "strike_count").getD (.num 0)),
      pyFloatE ((jget lightning "strike_probability").getD (.num 0)) with
  | .ok c, .ok p =>
      .ok ⟨month,
           idw_cloud_value st sd (fun sid => dget st.cloud_monthly (sid, year, month)),
           p, c⟩
  | .error e, _ => .error e
  | .ok _, .error e => .error e

/-- `MetricsStore._build_monthly_series`: months 1..12 of the requested year,
independent of the requested month. -/
def build_monthly_series (st : MetricsStore) (h3_cell : String)
    (sd : List (Station × ℚ)) (year : ℤ) : Except Unit (List MonthMetric) :=
  mapE (rangeInt 1 12) (monthly_entry st h3_cell sd year)

/-- One iteration of the yearly loop in `MetricsStore._build_yearly_series`. -/
def yearly_entry (st : MetricsStore) (h3_cell : String) (sd : List (Station × ℚ))
    (year : ℤ) : Except Unit YearMetric :=
  let lightning := (dget st.lightning_yearly (h3_cell, year)).getD []
  match pyIntE ((jget lightning "strike_count").getD (.num 0)),
      pyFloatE ((jget lightning "strike_probability").getD (.num 0)) with
  | .ok c, .ok p =>
      .ok ⟨year,
           idw_cloud_value st sd (fun sid => dget st.cloud_yearly (sid, year)),
           p, c⟩
  | .error e, _ => .error e
  | .ok _, .error e => .error e

/-- `MetricsStore._build_yearly_series`: `start_year` through
`min(max(selected_year, start_year), today_year)`, where `today_year` models
`date.today().year`. -/
def build_yearly_series (st : MetricsStore) (h3_cell : String)
    (sd : List (Station × ℚ)) (selected_year today_year : ℤ) :
    Except Unit (List YearMetric) :=
  let end_year := min (max selected_year st.start_year) today_year
  mapE (rangeInt st.start_year end_year) (yearly_entry st h3_cell sd)

/-- `MetricsStore.query`.  `h3fn` models `geo.latlng_to_h3_cell` (the extern
H3 library conversion), `dist` models the float haversine, `today_year`
models `date.today().year`; an uncaught Python exception from the series
builders propagates as `Except.error`. -/
def query (st : MetricsStore) (dist : ℚ → ℚ → ℚ → ℚ → ℚ)
    (h3fn : ℚ → ℚ → ℕ → String) (lat lon : ℚ) (year month today_year : ℤ) :
    Except Unit PointMetricsResponse :=
  let h3_cell := h3fn lat lon st.h3_resolution
  let station_distances := sorted_station_distances st dist lat lon
  let interpolation_info : Option CloudInterpolationInfo :=
    match station_distances with
    | [] => none
    | (nearest_station, nearest_distance) :: _ =>
        some ⟨nearest_station.name, round2 nearest_distance⟩
  let days := build_daily_series st h3_cell station_distances year month
  match build_monthly_series st h3_cell station_distances year with
  | .error e => .error e
  | .ok months =>
      match build_yearly_series st h3_cell station_distances year today_year with
      | .error e => .error e
      | .ok years =>
          .ok ⟨⟨lat, lon, h3_cell⟩, interpolation_info, ⟨days⟩, ⟨months⟩, ⟨years⟩⟩

/-- `_load_jsonl`: a missing file (`none`) yields no rows; present files are
modelled by the per-line parse results of `json.loads` (blank lines are
skipped before parsing and a syntactically invalid line raises inside
`json.loads`, both upstream of this model); lines that parse to a non-object
are dropped. -/
def load_jsonl (file : Option (List Json)) : List (List (String × Json)) :=
  match file with
  | none => []
  | some lines =>
      lines.filterMap (fun j =>
        match j with
        | .obj fields => some fields
        | _ => none)

/-- The `out = {}; for row in rows: ...; out[key] = value` accumulation shared
by the non-raising loaders: rows failing `parse` are skipped, the rest are
upserted in order. -/
def dictFold {α K V : Type} [DecidableEq K] (parse : α → Option (K × V)) :
    List α → List (K × V) → List (K × V)
  | [], out => out
  | r :: rest, out =>
      match parse r with
      | none => dictFold parse rest out
      | some (k, v) => dictFold parse rest (upsert out k v)

/-- Body of the `_load_lightning_daily` loop on one row.  Python evaluates
`int(row.get("strike_count", 0))` before the `if not h3_cell or not date_str`
check, so a non-coercible count raises even when the row would be skipped. -/
def lightning_daily_row (row : List (String × Json)) :
    Except Unit (Option ((String × String) × ℤ)) :=
  let h3_cell := strField row "h3"
  let date_s := strField row "date"
  match pyIntE ((jget row "strike_count").getD (.num 0)) with
  | .error e => .error e
  | .ok strike_count =>
      if h3_cell = "" ∨ date_s = "" then .ok none
      else .ok (some ((h3_cell, date_s), strike_count))

/-- Accumulating loop of `_load_lightning_daily`. -/
def lightning_daily_go : List (List (String × Json)) → List ((String × String) × ℤ) →
    Except Unit (List ((String × String) × ℤ))
  | [], out => .ok out
  | row :: rest, out =>
      match lightning_daily_row row with
      | .error e => .error e
      | .ok none => lightning_daily_go rest out
      | .ok (some (k, v)) => lightning_daily_go rest (upsert out k v)

/-- `_load_lightning_daily` (the only aggregate loader that can raise: it
uses bare `int(...)` instead of the lenient `as_int`). -/
def load_lightning_daily (file : Option (List Json)) :
    Except Unit (List ((String × String) × ℤ)) :=
  lightning_daily_go (load_jsonl file) []

/-- Row validation of `_load_lightning_monthly`: required non-empty `h3` and
int-coercible `year`/`month`; the stored value is the raw row. -/
def parse_lightning_monthly (j : Json) : Option ((String × ℤ × ℤ) × List (String × Json)) :=
  match j with
  | .obj row =>
      let h3_cell := strField row "h3"
      match as_int (jget row "year"), as_int (jget row "month") with
      | some year, some month =>
          if h3_cell = "" then none else some ((h3_cell, year, month), row)
      | _, _ => none
  | _ => none

/-- `_load_lightning_monthly`: a missing file or a non-array document yields
an empty dict; invalid rows are skipped. -/
def load_lightning_monthly (file : Option Json) : List ((String × ℤ × ℤ) × List (String × Json)) :=
  match file with
  | some (.arr rows) => dictFold parse_lightning_monthly rows []
  | _ => []

/-- Row validation of `_load_lightning_yearly`. -/
def parse_lightning_yearly (j : Json) : Option ((String × ℤ) × List (String × Json)) :=
  match j with
  | .obj row =>
      let h3_cell := strField row "h3"
      match as_int (jget row "year") with
      | some year => if h3_cell = "" then none else some ((h3_cell, year), row)
      | none => none
  | _ => none

/-- `_load_lightning_yearly`. -/
def load_lightning_yearly (file : Option Json) : List ((String × ℤ) × List (String × Json)) :=
  match file with
  | some (.arr rows) => dictFold parse_lightning_yearly rows []
  | _ => []

/-- Row validation of `_load_cloud_daily`: required non-empty `station_id` and
`date`, float-coercible `cloud_mean_pct`. -/
def parse_cloud_daily (row : List (String × Json)) : Option ((String × String) × ℚ) :=
  let station_id := strField row "station_id"
  let date_s := strField row "date"
  match as_float (jget row "cloud_mean_pct") with
  | some cloud_mean_pct =>
      if station_id = "" ∨ date_s = "" then none
      else some ((station_id, date_s), cloud_mean_pct)
  | none => none

/-- `_load_cloud_daily`. -/
def load_cloud_daily (file : Option (List Json)) : List ((String × String) × ℚ) :=
  dictFold parse_cloud_daily (load_jsonl file) []

/-- Row validation of `_load_cloud_monthly`. -/
def parse_cloud_monthly (j : Json) : Option ((String × ℤ × ℤ) × ℚ) :=
  match j with
  | .obj row =>
      let station_id := strField row "station_id"
      match as_int (jget row "year"), as_int (jget row "month"),
          as_float (jget row "cloud_mean_pct") with
      | some year, some month, some cloud_mean_pct =>
          if station_id = "" then none else some ((station_id, year, month), cloud_mean_pct)
      | _, _, _ => none
  | _ => none

/-- `_load_cloud_monthly`. -/
def load_cloud_monthly (file : Option Json) : List ((String × ℤ × ℤ) × ℚ) :=
  match file with
  | some (.arr rows) => dictFold parse_cloud_monthly rows []
  | _ => []

/-- Row validation of `_load_cloud_yearly`. -/
def parse_cloud_yearly (j : Json) : Option ((String × ℤ) × ℚ) :=
  match j with
  | .obj row =>
      let station_id := strField row "station_id"
      match as_int (jget row "year"), as_float (jget row "cloud_mean_pct") with
      | some year, some cloud_mean_pct =>
          if station_id = "" then none else some ((station_id, year), cloud_mean_pct)
      | _, _ => none
  | _ => none

/-- `_load_cloud_yearly`. -/
def load_cloud_yearly (file : Option Json) : List ((String × ℤ) × ℚ) :=
  match file with
  | some (.arr rows) => dictFold parse_cloud_yearly rows []
  | _ => []

/-! Concrete fixtures used by witness and counterexample theorems.  Rationals
in fixtures are kept integral (decimal float literals elaborate through the
irreducible `Rat.ofScientific`, which the kernel will not evaluate). -/

/-- An empty store with the production configuration: start year 2023, H3
resolution 7, a Sweden-style bounds box, IDW power 2, 6 neighbors, 150 km. -/
def st0 : MetricsStore :=
  ⟨[], [], [], [], [], [], [], 2023, 7, (55, 70, 10, 25), 2, 6, 150⟩

/-- A store whose configured start year lies after the current calendar year
of the fixture queries. -/
def st2030 : MetricsStore :=
  ⟨[], [], [], [], [], [], [], 2030, 7, (55, 70, 10, 25), 2, 6, 150⟩

/-- Trivial distance function for fixtures where the haversine value does not
matter. -/
def d0 : ℚ → ℚ → ℚ → ℚ → ℚ := fun _ _ _ _ => 0

/-- Trivial H3 conversion for fixtures. -/
def h0 : ℚ → ℚ → ℕ → String := fun _ _ _ => "cell"

/-- Two fixture stations at 1 km and 2 km from the query point. -/
def sd1 : List (Station × ℚ) :=
  [(⟨"98210", "Stockholm A", 0, 0⟩, 1), (⟨"98230", "Bromma", 0, 0⟩, 2)]

/-- Cloud values 50 and 80 for the two fixture stations. -/
def lookup1 : String → Option ℚ := fun sid =>
  if sid = "98210" then some 50 else if sid = "98230" then some 80 else none

/-! Helper lemmas about the collection walk of `_idw_cloud_value`. -/

theorem idw_collect_skip_all (st : MetricsStore) (lookup : String → Option ℚ) :
    ∀ (l : List (Station × ℚ)) (acc : List (ℚ × ℚ)),
    (∀ p ∈ l, p.2 ≤ st.idw_max_distance_km → lookup p.1.station_id = none) →
    idw_collect st lookup l acc = .collected acc := by
  intro l
  induction l with
  | nil => intro acc _; rfl
  | cons p rest ih =>
      intro acc h
      obtain ⟨s, d⟩ := p
      simp only [idw_collect]
      by_cases hd : st.idw_max_distance_km < d
      · simp [hd]
      · have hl : lookup s.station_id = none := h (s, d) (by simp) (not_lt.mp hd)
        simp only [if_neg hd, hl]
        exact ih acc (fun q hq hql => h q (List.mem_cons_of_mem _ hq) hql)

theorem idw_cloud_value_eq_none (st : MetricsStore) (sd : List (Station × ℚ))
    (lookup : String → Option ℚ)
    (h : ∀ p ∈ sd, p.2 ≤ st.idw_max_distance_km → lookup p.1.station_id = none) :
    idw_cloud_value st sd lookup = none := by
  unfold idw_cloud_value
  rw [idw_collect_skip_all st lookup sd [] h]

theorem idw_collect_collected_inv (st : MetricsStore) (lookup : String → Option ℚ) :
    ∀ (l : List (Station × ℚ)) (acc L : List (ℚ × ℚ)),
    idw_collect st lookup l acc = .collected L →
    (∀ p ∈ acc, eps ≤ p.1 ∧ p.1 ≤ st.idw_max_distance_km) →
    ∀ p ∈ L, eps ≤ p.1 ∧ p.1 ≤ st.idw_max_distance_km := by
  intro l
  induction l with
  | nil =>
      intro acc L hcol hacc
      simp only [idw_collect, CollectResult.collected.injEq] at hcol
      exact hcol ▸ hacc
  | cons p rest ih =>
      intro acc L hcol hacc
      obtain ⟨s, d⟩ := p
      simp only [idw_collect] at hcol
      by_cases hd : st.idw_max_distance_km < d
      · rw [if_pos hd] at hcol
        cases hcol
        exact hacc
      · rw [if_neg hd] at hcol
        cases hlk : lookup s.station_id with
        | none =>
            simp only [hlk] at hcol
            exact ih acc L hcol hacc
        | some v =>
            simp only [hlk] at hcol
            by_cases he : d < eps
            · rw [if_pos he] at hcol
              cases hcol
            · rw [if_neg he] at hcol
              have hacc2 : ∀ q ∈ acc ++ [(d, v)], eps ≤ q.1 ∧ q.1 ≤ st.idw_max_distance_km := by
                intro q hq
                rcases List.mem_append.mp hq with hq | hq
                · exact hacc q hq
                · rcases List.mem_singleton.mp hq with rfl
                  exact ⟨not_lt.mp he, not_lt.mp hd⟩
              by_cases hn : st.idw_max_neighbors ≤ (acc ++ [(d, v)]).length
              · rw [if_pos hn] at hcol
                cases hcol
                exact hacc2
              · rw [if_neg hn] at hcol
                exact ih _ L hcol hacc2

theorem idw_collect_collected_length (st : MetricsStore) (lookup : String → Option ℚ) :
    ∀ (l : List (Station × ℚ)) (acc L : List (ℚ × ℚ)),
    acc.length < st.idw_max_neighbors →
    idw_collect st lookup l acc = .collected L →
    L.length ≤ st.idw_max_neighbors := by
  intro l
  induction l with
  | nil =>
      intro acc L hlen hcol
      simp only [idw_collect, CollectResult.collected.injEq] at hcol
      exact hcol ▸ le_of_lt hlen
  | cons p rest ih =>
      intro acc L hlen hcol
      obtain ⟨s, d⟩ := p
      simp only [idw_collect] at hcol
      by_cases hd : st.idw_max_distance_km < d
      · rw [if_pos hd] at hcol
        cases hcol
        exact le_of_lt hlen
      · rw [if_neg hd] at hcol
        cases hlk : lookup s.station_id with
        | none =>
            simp only [hlk] at hcol
            exact ih acc L hlen hcol
        | some v =>
            simp only [hlk] at hcol
            by_cases he : d < eps
            · rw [if_pos he] at hcol
              cases hcol
            · rw [if_neg he] at hcol
              by_cases hn : st.idw_max_neighbors ≤ (acc ++ [(d, v)]).length
              · rw [if_pos hn] at hcol
                cases hcol
                simpa using hlen
              · rw [if_neg hn] at hcol
                exact ih _ L (not_le.mp hn) hcol

theorem idw_collect_prefix_exact (st : MetricsStore) (lookup : String → Option ℚ)
    (s : Station) (d v : ℚ) (rest : List (Station × ℚ)) :
    ∀ (pre : List (Station × ℚ)) (acc : List (ℚ × ℚ)),
    (∀ p ∈ pre, p.2 ≤ st.idw_max_distance_km ∧ lookup p.1.station_id = none) →
    d ≤ st.idw_max_distance_km → d < eps → lookup s.station_id = some v →
    idw_collect st lookup (pre ++ (s, d) :: rest) acc = .exact v := by
  intro pre
  induction pre with
  | nil =>
      intro acc _ hd he hv
      simp only [List.nil_append, idw_collect, if_neg (not_lt.mpr hd), hv, if_pos he]
  | cons q pre' ih =>
      intro acc hpre hd he hv
      obtain ⟨s', d'⟩ := q
      have hq := hpre (s', d') (by simp)
      simp only [List.cons_append, idw_collect, if_neg (not_lt.mpr hq.1), hq.2]
      exact ih acc (fun p hp => hpre p (List.mem_cons_of_mem _ hp)) hd he hv

/-! Helper lemmas about round-half-even. -/

theorem roundHalfEven_bounds (x : ℚ) :
    x - 1 / 2 ≤ (roundHalfEven x : ℚ) ∧ (roundHalfEven x : ℚ) ≤ x + 1 / 2 := by
  unfold roundHalfEven
  have hfl : (⌊x⌋ : ℚ) ≤ x := Int.floor_le x
  have hfu : x < (⌊x⌋ : ℚ) + 1 := Int.lt_floor_add_one x
  split_ifs with h1 h2 h3 <;> constructor <;> push_cast <;> linarith

theorem roundHalfEven_nonneg (x : ℚ) (hx : 0 ≤ x) : 0 ≤ roundHalfEven x := by
  unfold roundHalfEven
  have hfl : (0 : ℤ) ≤ ⌊x⌋ := Int.floor_nonneg.mpr hx
  split_ifs with h1 h2 h3 <;> omega

theorem roundHalfEven_le_int (x : ℚ) (N : ℤ) (hx : x ≤ (N : ℚ)) : roundHalfEven x ≤ N := by
  unfold roundHalfEven
  have hfl : ⌊x⌋ ≤ N := by
    have := Int.floor_le_floor hx
    simpa using this
  have hflx : (⌊x⌋ : ℚ) ≤ x := Int.floor_le x
  split_ifs with h1 h2 h3
  · exact hfl
  · -- here 1/2 < x - ⌊x⌋, so ⌊x⌋ < x ≤ N, hence ⌊x⌋ + 1 ≤ N
    have : (⌊x⌋ : ℚ) < (N : ℚ) := by linarith
    have := Int.lt_iff_add_one_le.mp (by exact_mod_cast this)
    omega
  · exact hfl
  · have : (⌊x⌋ : ℚ) < (N : ℚ) := by linarith
    have := Int.lt_iff_add_one_le.mp (by exact_mod_cast this)
    omega

theorem round2_bounds (x : ℚ) : x - 1 / 200 ≤ round2 x ∧ round2 x ≤ x + 1 / 200 := by
  unfold round2
  obtain ⟨h1, h2⟩ := roundHalfEven_bounds (100 * x)
  constructor
  · rw [le_div_iff₀ (show (0:ℚ) < 100 by norm_num)]
    linarith
  · rw [div_le_iff₀ (show (0:ℚ) < 100 by norm_num)]
    linarith

theorem round2_nonneg (x : ℚ) (hx : 0 ≤ x) : 0 ≤ round2 x := by
  unfold round2
  have := roundHalfEven_nonneg (100 * x) (by positivity)
  positivity

theorem round2_le_hundred (x : ℚ) (hx : x ≤ 100) : round2 x ≤ 100 := by
  unfold round2
  have h : roundHalfEven (100 * x) ≤ (10000 : ℤ) :=
    roundHalfEven_le_int (100 * x) 10000 (by push_cast; linarith)
  rw [div_le_iff₀ (by norm_num : (0:ℚ) < 100)]
  exact_mod_cast le_trans (by exact_mod_cast h) (by norm_num)

/-- When the collection walk ends with a non-empty collected list, the
returned value is the rounded ratio of the two accumulated sums, exactly as
the final loop of `_idw_cloud_value` computes them. -/
theorem idw_cloud_value_weighted (st : MetricsStore) (sd : List (Station × ℚ))
    (lookup : String → Option ℚ) (L : List (ℚ × ℚ))
    (hc : idw_collect st lookup sd [] = .collected L) (hne : L ≠ []) :
    idw_cloud_value st sd lookup =
      some (round2 ((L.map (fun p => 1 / p.1 ^ st.idw_power * p.2)).sum /
        (L.map (fun p => 1 / p.1 ^ st.idw_power)).sum)) := by
  unfold idw_cloud_value
  rw [hc]
  cases L with
  | nil => exact absurd rfl hne
  | cons a l => rfl

/-- C1: whenever `_idw_cloud_value` takes the weighted branch on a non-empty
collected neighbor list, every collected neighbor lies between 1e-9 km and the
configured max distance, at most `idw_max_neighbors` are collected (the
configured count being positive), and the returned cloud value is the
inverse-distance-weighted mean Σ(value_i / distance_i^power) divided by
Σ(1 / distance_i^power), rounded to 2 decimals. -/
theorem c1_idw_weighted_mean (st : MetricsStore) (sd : List (Station × ℚ))
    (lookup : String → Option ℚ) (L : List (ℚ × ℚ))
    (hmn : 1 ≤ st.idw_max_neighbors)
    (hc : idw_collect st lookup sd [] = .collected L) (hne : L ≠ []) :
    (∀ p ∈ L, eps ≤ p.1 ∧ p.1 ≤ st.idw_max_distance_km) ∧
    L.length ≤ st.idw_max_neighbors ∧
    idw_cloud_value st sd lookup =
      some (round2 ((L.map (fun p => p.2 / p.1 ^ st.idw_power)).sum /
        (L.map (fun p => 1 / p.1 ^ st.idw_power)).sum)) := by
  refine ⟨idw_collect_collected_inv st lookup sd [] L hc (by simp),
    idw_collect_collected_length st lookup sd [] L (by simpa using hmn) hc, ?_⟩
  rw [idw_cloud_value_weighted st sd lookup L hc hne]
  have hmap : L.map (fun p : ℚ × ℚ => 1 / p.1 ^ st.idw_power * p.2) =
      L.map (fun p : ℚ × ℚ => p.2 / p.1 ^ st.idw_power) := by
    apply List.map_congr_left
    intro p _
    rw [one_div_mul_eq_div]
  rw [hmap]

/-- Witness for C1 at two stations 1 km and 2 km away with values 50 and 80. -/
theorem c1_witness :
    idw_cloud_value st0 sd1 lookup1 =
      some (round2 (([((1:ℚ), (50:ℚ)), (2, 80)].map
          (fun p => p.2 / p.1 ^ st0.idw_power)).sum /
        ([((1:ℚ), (50:ℚ)), (2, 80)].map (fun p => 1 / p.1 ^ st0.idw_power)).sum)) :=
  (c1_idw_weighted_mean st0 sd1 lookup1 [(1, 50), (2, 80)]
    (by decide) (by decide) (by decide)).2.2

/-- C5: when a co-located station (distance below 1e-9 km, inside the max
radius) has a value for the key and every station preceding it in the
ascending-distance walk has none, `_idw_cloud_value` returns that station's
raw value with no weighting and no rounding. -/
theorem c5_colocated_exact (st : MetricsStore) (lookup : String → Option ℚ)
    (pre rest : List (Station × ℚ)) (s : Station) (d v : ℚ)
    (hpre : ∀ p ∈ pre, p.2 ≤ st.idw_max_distance_km ∧ lookup p.1.station_id = none)
    (hd : d ≤ st.idw_max_distance_km) (he : d < eps)
    (hv : lookup s.station_id = some v) :
    idw_cloud_value st (pre ++ (s, d) :: rest) lookup = some v := by
  unfold idw_cloud_value
  rw [idw_collect_prefix_exact st lookup s d v rest pre [] hpre hd he hv]

/-- Witness for C5: a station at distance 0 with value 42, preceded in the
walk only by a station with no value. -/
theorem c5_witness :
    idw_cloud_value st0 ([(⟨"00001", "NoData", 0, 0⟩, 1)] ++ (⟨"98210", "Stockholm A", 0, 0⟩, 0) :: [])
      (fun sid => if sid = "98210" then some 42 else none) = some 42 :=
  c5_colocated_exact st0 (fun sid => if sid = "98210" then some 42 else none)
    [(⟨"00001", "NoData", 0, 0⟩, 1)] [] ⟨"98210", "Stockholm A", 0, 0⟩ 0 42
    (by decide) (by decide) (by decide) (by decide)

/-- C10: a value returned by the weighted branch is the rounding of a convex
combination of the contributing values: it lies between the least and the
greatest contributing value up to half of the rounding step (1/200), and if
all contributing values lie in [0, 100] the returned value lies in [0, 100]. -/
theorem c10_weighted_convex (st : MetricsStore) (sd : List (Station × ℚ))
    (lookup : String → Option ℚ) (L : List (ℚ × ℚ)) (lo hi : ℚ)
    (hc : idw_collect st lookup sd [] = .collected L) (hne : L ≠ [])
    (hb : ∀ p ∈ L, lo ≤ p.2 ∧ p.2 ≤ hi) :
    ∃ r, idw_cloud_value st sd lookup = some r ∧
      lo - 1 / 200 ≤ r ∧ r ≤ hi + 1 / 200 ∧
      (0 ≤ lo → hi ≤ 100 → 0 ≤ r ∧ r ≤ 100) := by
  have hpos : ∀ p ∈ L, 0 < 1 / p.1 ^ st.idw_power := by
    intro p hp
    have h1 := idw_collect_collected_inv st lookup sd [] L hc (by simp) p hp
    have heps : (0 : ℚ) < eps := by decide
    have hd : 0 < p.1 := lt_of_lt_of_le heps h1.1
    positivity
  have hSne : L.map (fun p : ℚ × ℚ => 1 / p.1 ^ st.idw_power) ≠ [] := by
    cases L with
    | nil => exact absurd rfl hne
    | cons a l => simp
  have hS : 0 < (L.map (fun p : ℚ × ℚ => 1 / p.1 ^ st.idw_power)).sum := by
    apply List.sum_pos
    · intro x hx
      obtain ⟨p, hp, rfl⟩ := List.mem_map.mp hx
      exact hpos p hp
    · exact hSne
  have hlo : lo * (L.map (fun p : ℚ × ℚ => 1 / p.1 ^ st.idw_power)).sum ≤
      (L.map (fun p : ℚ × ℚ => 1 / p.1 ^ st.idw_power * p.2)).sum := by
    have hstep : (L.map (fun p : ℚ × ℚ => 1 / p.1 ^ st.idw_power * lo)).sum ≤
        (L.map (fun p : ℚ × ℚ => 1 / p.1 ^ st.idw_power * p.2)).sum := by
      apply List.sum_le_sum
      intro p hp
      exact mul_le_mul_of_nonneg_left (hb p hp).1 (le_of_lt (hpos p hp))
    calc lo * (L.map (fun p : ℚ × ℚ => 1 / p.1 ^ st.idw_power)).sum
        = (L.map (fun p : ℚ × ℚ => 1 / p.1 ^ st.idw_power * lo)).sum := by
          rw [List.sum_map_mul_right, mul_comm]
      _ ≤ _ := hstep
  have hhi : (L.map (fun p : ℚ × ℚ => 1 / p.1 ^ st.idw_power * p.2)).sum ≤
      hi * (L.map (fun p : ℚ × ℚ => 1 / p.1 ^ st.idw_power)).sum := by
    have hstep : (L.map (fun p : ℚ × ℚ => 1 / p.1 ^ st.idw_power * p.2)).sum ≤
        (L.map (fun p : ℚ × ℚ => 1 / p.1 ^ st.idw_power * hi)).sum := by
      apply List.sum_le_sum
      intro p hp
      exact mul_le_mul_of_nonneg_left (hb p hp).2 (le_of_lt (hpos p hp))
    calc (L.map (fun p : ℚ × ℚ => 1 / p.1 ^ st.idw_power * p.2)).sum
        ≤ (L.map (fun p : ℚ × ℚ => 1 / p.1 ^ st.idw_power * hi)).sum := hstep
      _ = hi * (L.map (fun p : ℚ × ℚ => 1 / p.1 ^ st.idw_power)).sum := by
          rw [List.sum_map_mul_right, mul_comm]
  have hulo : lo ≤ (L.map (fun p : ℚ × ℚ => 1 / p.1 ^ st.idw_power * p.2)).sum /
      (L.map (fun p : ℚ × ℚ => 1 / p.1 ^ st.idw_power)).sum :=
    (le_div_iff₀ hS).mpr hlo
  have huhi : (L.map (fun p : ℚ × ℚ => 1 / p.1 ^ st.idw_power * p.2)).sum /
      (L.map (fun p : ℚ × ℚ => 1 / p.1 ^ st.idw_power)).sum ≤ hi :=
    (div_le_iff₀ hS).mpr hhi
  refine ⟨round2 ((L.map (fun p : ℚ × ℚ => 1 / p.1 ^ st.idw_power * p.2)).sum /
      (L.map (fun p : ℚ × ℚ => 1 / p.1 ^ st.idw_power)).sum),
    idw_cloud_value_weighted st sd lookup L hc hne, ?_, ?_, ?_⟩
  · obtain ⟨hb1, _⟩ := round2_bounds ((L.map (fun p : ℚ × ℚ => 1 / p.1 ^ st.idw_power * p.2)).sum /
      (L.map (fun p : ℚ × ℚ => 1 / p.1 ^ st.idw_power)).sum)
    linarith
  · obtain ⟨_, hb2⟩ := round2_bounds ((L.map (fun p : ℚ × ℚ => 1 / p.1 ^ st.idw_power * p.2)).sum /
      (L.map (fun p : ℚ × ℚ => 1 / p.1 ^ st.idw_power)).sum)
    linarith
  · intro h0 h100
    exact ⟨round2_nonneg _ (le_trans h0 hulo), round2_le_hundred _ (le_trans huhi h100)⟩

/-- Witness for C10 with contributing values 50 and 80 in [0, 100]. -/
theorem c10_witness :
    ∃ r, idw_cloud_value st0 sd1 lookup1 = some r ∧
      (0 : ℚ) - 1 / 200 ≤ r ∧ r ≤ 100 + 1 / 200 ∧
      (0 ≤ (0 : ℚ) → (100 : ℚ) ≤ 100 → 0 ≤ r ∧ r ≤ 100) :=
  c10_weighted_convex st0 sd1 lookup1 [(1, 50), (2, 80)] 0 100
    (by decide) (by decide) (by decide)

/-! Helper lemmas about `mapE`, `rangeInt` and the per-entry builders. -/

theorem mapE_ok_length {α β ε : Type} (f : α → Except ε β) :
    ∀ (l : List α) (out : List β), mapE l f = .ok out → out.length = l.length := by
  intro l
  induction l with
  | nil =>
      intro out h
      simp only [mapE, Except.ok.injEq] at h
      rw [← h]
      rfl
  | cons a rest ih =>
      intro out h
      simp only [mapE] at h
      cases hfa : f a with
      | error e =>
          simp only [hfa] at h
          exact Except.noConfusion h
      | ok b =>
          simp only [hfa] at h
          cases hrest : mapE rest f with
          | error e =>
              simp only [hrest] at h
              exact Except.noConfusion h
          | ok bs =>
              simp only [hrest, Except.ok.injEq] at h
              rw [← h]
              simp [ih bs hrest]

theorem mapE_ok_mem {α β ε : Type} (f : α → Except ε β) :
    ∀ (l : List α) (out : List β), mapE l f = .ok out →
    ∀ b ∈ out, ∃ a ∈ l, f a = .ok b := by
  intro l
  induction l with
  | nil =>
      intro out h b hb
      simp only [mapE, Except.ok.injEq] at h
      rw [← h] at hb
      cases hb
  | cons a rest ih =>
      intro out h b hb
      simp only [mapE] at h
      cases hfa : f a with
      | error e =>
          simp only [hfa] at h
          exact Except.noConfusion h
      | ok b0 =>
          simp only [hfa] at h
          cases hrest : mapE rest f with
          | error e =>
              simp only [hrest] at h
              exact Except.noConfusion h
          | ok bs =>
              simp only [hrest, Except.ok.injEq] at h
              rw [← h] at hb
              rcases List.mem_cons.mp hb with rfl | hb'
              · exact ⟨a, by simp, hfa⟩
              · obtain ⟨a', ha', hfa'⟩ := ih bs hrest b hb'
                exact ⟨a', List.mem_cons_of_mem _ ha', hfa'⟩

theorem mapE_ok_map {α β γ ε : Type} (f : α → Except ε β) (proj : β → γ) (g : α → γ)
    (hpr : ∀ a b, f a = .ok b → proj b = g a) :
    ∀ (l : List α) (out : List β), mapE l f = .ok out → out.map proj = l.map g := by
  intro l
  induction l with
  | nil =>
      intro out h
      simp only [mapE, Except.ok.injEq] at h
      rw [← h]
      rfl
  | cons a rest ih =>
      intro out h
      simp only [mapE] at h
      cases hfa : f a with
      | error e =>
          simp only [hfa] at h
          exact Except.noConfusion h
      | ok b =>
          simp only [hfa] at h
          cases hrest : mapE rest f with
          | error e =>
              simp only [hrest] at h
              exact Except.noConfusion h
          | ok bs =>
              simp only [hrest, Except.ok.injEq] at h
              rw [← h]
              simp only [List.map_cons]
              rw [hpr a b hfa, ih bs hrest]

theorem rangeInt_length (a b : ℤ) : (rangeInt a b).length = (b + 1 - a).toNat := by
  unfold rangeInt
  rw [List.length_map, List.length_range]

theorem mem_rangeInt (a b x : ℤ) : x ∈ rangeInt a b ↔ a ≤ x ∧ x ≤ b := by
  unfold rangeInt
  rw [List.mem_map]
  constructor
  · rintro ⟨i, hi, rfl⟩
    rw [List.mem_range] at hi
    omega
  · intro hx
    refine ⟨(x - a).toNat, ?_, ?_⟩
    · rw [List.mem_range]
      omega
    · omega

theorem monthly_entry_ok (st : MetricsStore) (h3_cell : String)
    (sd : List (Station × ℚ)) (year month : ℤ) (b : MonthMetric)
    (h : monthly_entry st h3_cell sd year month = .ok b) :
    b.month = month ∧
    b.cloud_mean_pct =
      idw_cloud_value st sd (fun sid => dget st.cloud_monthly (sid, year, month)) := by
  simp only [monthly_entry] at h
  split at h
  · cases h
    exact ⟨rfl, rfl⟩
  · exact Except.noConfusion h
  · exact Except.noConfusion h

theorem monthly_entry_default (st : MetricsStore) (h3_cell : String)
    (sd : List (Station × ℚ)) (year month : ℤ)
    (h : dget st.lightning_monthly (h3_cell, year, month) = none) :
    monthly_entry st h3_cell sd year month =
      .ok ⟨month, idw_cloud_value st sd (fun sid => dget st.cloud_monthly (sid, year, month)),
        0, 0⟩ := by
  unfold monthly_entry
  rw [h]
  rfl

theorem yearly_entry_ok (st : MetricsStore) (h3_cell : String)
    (sd : List (Station × ℚ)) (year : ℤ) (b : YearMetric)
    (h : yearly_entry st h3_cell sd year = .ok b) :
    b.year = year ∧
    b.cloud_mean_pct =
      idw_cloud_value st sd (fun sid => dget st.cloud_yearly (sid, year)) := by
  simp only [yearly_entry] at h
  split at h
  · cases h
    exact ⟨rfl, rfl⟩
  · exact Except.noConfusion h
  · exact Except.noConfusion h

theorem yearly_entry_default (st : MetricsStore) (h3_cell : String)
    (sd : List (Station × ℚ)) (year : ℤ)
    (h : dget st.lightning_yearly (h3_cell, year) = none) :
    yearly_entry st h3_cell sd year =
      .ok ⟨year, idw_cloud_value st sd (fun sid => dget st.cloud_yearly (sid, year)), 0, 0⟩ := by
  unfold yearly_entry
  rw [h]
  rfl

theorem build_monthly_parts (st : MetricsStore) (h3_cell : String)
    (sd : List (Station × ℚ)) (year : ℤ) (ms : List MonthMetric)
    (h : build_monthly_series st h3_cell sd year = .ok ms) :
    ms.length = 12 ∧ ms.map (fun e => e.month) = rangeInt 1 12 := by
  constructor
  · rw [mapE_ok_length _ _ _ h, rangeInt_length]
    rfl
  · have := mapE_ok_map (monthly_entry st h3_cell sd year) (fun e => e.month) id
      (fun a b hab => (monthly_entry_ok st h3_cell sd year a b hab).1) (rangeInt 1 12) ms h
    simpa using this

theorem build_yearly_parts (st : MetricsStore) (h3_cell : String)
    (sd : List (Station × ℚ)) (selected_year today_year : ℤ) (ys : List YearMetric)
    (h : build_yearly_series st h3_cell sd selected_year today_year = .ok ys) :
    ys.length = (min (max selected_year st.start_year) today_year + 1 - st.start_year).toNat ∧
    ys.map (fun e => e.year) =
      rangeInt st.start_year (min (max selected_year st.start_year) today_year) := by
  constructor
  · rw [mapE_ok_length _ _ _ h, rangeInt_length]
  · have := mapE_ok_map (yearly_entry st h3_cell sd) (fun e => e.year) id
      (fun a b hab => (yearly_entry_ok st h3_cell sd a b hab).1) _ ys h
    simpa using this

theorem build_daily_parts (st : MetricsStore) (h3_cell : String)
    (sd : List (Station × ℚ)) (year month : ℤ) :
    (build_daily_series st h3_cell sd year month).length = (days_in_month year month).toNat ∧
    (build_daily_series st h3_cell sd year month).map (fun e => e.date) =
      (rangeInt 1 (days_in_month year month)).map (fun d => date_str year month d) := by
  constructor
  · simp [build_daily_series, rangeInt_length]
  · simp only [build_daily_series, List.map_map]
    rfl

theorem query_ok_parts (st : MetricsStore) (dist : ℚ → ℚ → ℚ → ℚ → ℚ)
    (h3fn : ℚ → ℚ → ℕ → String) (lat lon : ℚ) (year month today_year : ℤ)
    (r : PointMetricsResponse)
    (h : query st dist h3fn lat lon year month today_year = .ok r) :
    r.point = ⟨lat, lon, h3fn lat lon st.h3_resolution⟩ ∧
    r.cloud_interpolation =
      (match sorted_station_distances st dist lat lon with
        | [] => none
        | (s, d) :: _ => some ⟨s.name, round2 d⟩) ∧
    r.daily.days = build_daily_series st (h3fn lat lon st.h3_resolution)
      (sorted_station_distances st dist lat lon) year month ∧
    build_monthly_series st (h3fn lat lon st.h3_resolution)
      (sorted_station_distances st dist lat lon) year = .ok r.monthly.months ∧
    build_yearly_series st (h3fn lat lon st.h3_resolution)
      (sorted_station_distances st dist lat lon) year today_year = .ok r.yearly.years := by
  simp only [query] at h
  split at h
  · exact Except.noConfusion h
  · rename_i ms hms
    split at h
    · exact Except.noConfusion h
    · rename_i ys hys
      cases h
      exact ⟨rfl, rfl, rfl, hms, hys⟩

theorem days_in_month_nonneg (year month : ℤ) : 0 ≤ days_in_month year month := by
  unfold days_in_month
  split_ifs <;> norm_num

/-- C8: for a calendar month (1..12, the validated query range — outside it
`calendar.monthrange` raises), the daily series of a successful query has
exactly one entry per calendar day of the requested (year, month), in
ascending date order: its length is the Gregorian day count of the month
(29 for February of a leap year such as 2024-02, 28 otherwise) and its date
keys are `YYYY-MM-DD` for days 1, 2, ... in order. -/
theorem c8_daily_calendar (st : MetricsStore) (dist : ℚ → ℚ → ℚ → ℚ → ℚ)
    (h3fn : ℚ → ℚ → ℕ → String) (lat lon : ℚ) (year month today_year : ℤ)
    (r : PointMetricsResponse) (hm : 1 ≤ month ∧ month ≤ 12)
    (hq : query st dist h3fn lat lon year month today_year = .ok r) :
    (r.daily.days.length : ℤ) = days_in_month year month ∧
    r.daily.days.map (fun e => e.date) =
      List.map (fun d => date_str year month d) (rangeInt 1 (days_in_month year month)) := by
  obtain ⟨-, -, hdays, -, -⟩ :=
    query_ok_parts st dist h3fn lat lon year month today_year r hq
  rw [hdays]
  obtain ⟨hlen, hmap⟩ := build_daily_parts st (h3fn lat lon st.h3_resolution)
    (sorted_station_distances st dist lat lon) year month
  refine ⟨?_, hmap⟩
  rw [hlen, Int.toNat_of_nonneg (days_in_month_nonneg year month)]

/-- Witness for C8 at the leap February 2024-02: the daily series of a
successful query on the empty fixture store has 29 entries. -/
theorem c8_witness :
    (query st0 d0 h0 59 18 2024 2 2025).toOption.map
      (fun r => (r.daily.days.length : ℤ)) = some (days_in_month 2024 2) ∧
    days_in_month 2024 2 = 29 := by
  constructor
  · cases hq : query st0 d0 h0 59 18 2024 2 2025 with
    | error e =>
        have hs : (query st0 d0 h0 59 18 2024 2 2025).toOption.isSome = true := by decide
        rw [hq] at hs
        simp [Except.toOption] at hs
    | ok r =>
        have h8 := c8_daily_calendar st0 d0 h0 59 18 2024 2 2025 r
          ⟨by decide, by decide⟩ hq
        simp [Except.toOption, h8.1]
  · decide

/-- C9: the monthly series of a successful query has exactly 12 entries, one
per month 1..12 of the requested year in ascending order, and it does not
depend on which month was requested. -/
theorem c9_monthly_always_12 (st : MetricsStore) (dist : ℚ → ℚ → ℚ → ℚ → ℚ)
    (h3fn : ℚ → ℚ → ℕ → String) (lat lon : ℚ) (year month today_year : ℤ)
    (r : PointMetricsResponse)
    (hq : query st dist h3fn lat lon year month today_year = .ok r) :
    r.monthly.months.length = 12 ∧
    r.monthly.months.map (fun e => e.month) = rangeInt 1 12 ∧
    ∀ month2 : ℤ, (query st dist h3fn lat lon year month2 today_year).toOption.map
      (fun x => x.monthly) = some r.monthly := by
  obtain ⟨-, -, -, hms, hys⟩ :=
    query_ok_parts st dist h3fn lat lon year month today_year r hq
  obtain ⟨hlen, hmap⟩ := build_monthly_parts st (h3fn lat lon st.h3_resolution)
    (sorted_station_distances st dist lat lon) year r.monthly.months hms
  refine ⟨hlen, hmap, ?_⟩
  intro month2
  simp only [query]
  rw [hms, hys]
  rfl

/-- Witness for C9: a successful query on the empty fixture store returns a
12-entry monthly series. -/
theorem c9_witness :
    (query st0 d0 h0 59 18 2025 7 2025).toOption.map
      (fun r => r.monthly.months.length) = some 12 := by
  cases hq : query st0 d0 h0 59 18 2025 7 2025 with
  | error e =>
      have hs : (query st0 d0 h0 59 18 2025 7 2025).toOption.isSome = true := by decide
      rw [hq] at hs
      simp [Except.toOption] at hs
  | ok r =>
      have h9 := c9_monthly_always_12 st0 d0 h0 59 18 2025 7 2025 r hq
      simp [Except.toOption, h9.1]

/-- C3 counterexample: when the configured start year (2030) exceeds the
current calendar year (2025) the yearly series of a successful query is
empty, refuting the claimed minimum length of 1 for every query. -/
theorem c3_counterexample :
    (query st2030 d0 h0 59 18 2024 6 2025).toOption.map
      (fun r => r.yearly.years) = some [] := by decide

/-- C3 (amended): provided the configured start year does not exceed the
current calendar year, the yearly series of a successful query covers exactly
the consecutive years from the start year S through min(max(Y, S), C)
inclusive (Y the requested year, C the current calendar year), its length is
clamp(Y, S, C) - S + 1, and it is never empty. -/
theorem c3_yearly_range (st : MetricsStore) (dist : ℚ → ℚ → ℚ → ℚ → ℚ)
    (h3fn : ℚ → ℚ → ℕ → String) (lat lon : ℚ) (year month today_year : ℤ)
    (r : PointMetricsResponse)
    (hsy : st.start_year ≤ today_year)
    (hq : query st dist h3fn lat lon year month today_year = .ok r) :
    r.yearly.years.map (fun e => e.year) =
      rangeInt st.start_year (min (max year st.start_year) today_year) ∧
    (r.yearly.years.length : ℤ) = min (max year st.start_year) today_year - st.start_year + 1 ∧
    1 ≤ r.yearly.years.length := by
  obtain ⟨-, -, -, -, hys⟩ :=
    query_ok_parts st dist h3fn lat lon year month today_year r hq
  obtain ⟨hlen, hmap⟩ := build_yearly_parts st (h3fn lat lon st.h3_resolution)
    (sorted_station_distances st dist lat lon) year today_year r.yearly.years hys
  have hend : st.start_year ≤ min (max year st.start_year) today_year :=
    le_min (le_max_right year st.start_year) hsy
  refine ⟨hmap, ?_, ?_⟩
  · rw [hlen, Int.toNat_of_nonneg (by omega)]
    omega
  · rw [hlen]
    omega

/-- Witness for C3 (amended): start year 2023, current year 2025, requested
year 2024 give a 2-entry yearly series (2023, 2024). -/
theorem c3_witness :
    (query st0 d0 h0 59 18 2024 6 2025).toOption.map
      (fun r => (r.yearly.years.length : ℤ)) = some 2 := by
  cases hq : query st0 d0 h0 59 18 2024 6 2025 with
  | error e =>
      have hs : (query st0 d0 h0 59 18 2024 6 2025).toOption.isSome = true := by decide
      rw [hq] at hs
      simp [Except.toOption] at hs
  | ok r =>
      have h3 := c3_yearly_range st0 d0 h0 59 18 2024 6 2025 r (by decide) hq
      have hv : min (max (2024 : ℤ) st0.start_year) 2025 - st0.start_year + 1 = 2 := by decide
      simp [Except.toOption, h3.2.1, hv]

/-- C4: in every series of a successful query, an entry whose key has no
lightning record carries lightning count 0 (and probability 0.0 where the
series has one), never null; and an entry for whose key no station within the
configured max distance has cloud data carries a null cloud value, never 0
and never an error. -/
theorem c4_zero_fill_null_fill (st : MetricsStore) (dist : ℚ → ℚ → ℚ → ℚ → ℚ)
    (h3fn : ℚ → ℚ → ℕ → String) (lat lon : ℚ) (year month today_year : ℤ)
    (r : PointMetricsResponse)
    (hq : query st dist h3fn lat lon year month today_year = .ok r) :
    (∀ e ∈ r.daily.days,
      (dget st.lightning_daily (h3fn lat lon st.h3_resolution, e.date) = none →
        e.lightning_count = 0) ∧
      ((∀ p ∈ sorted_station_distances st dist lat lon,
          p.2 ≤ st.idw_max_distance_km →
          dget st.cloud_daily (p.1.station_id, e.date) = none) →
        e.cloud_mean_pct = none)) ∧
    (∀ e ∈ r.monthly.months,
      (dget st.lightning_monthly (h3fn lat lon st.h3_resolution, year, e.month) = none →
        e.lightning_count = 0 ∧ e.lightning_probability = 0) ∧
      ((∀ p ∈ sorted_station_distances st dist lat lon,
          p.2 ≤ st.idw_max_distance_km →
          dget st.cloud_monthly (p.1.station_id, year, e.month) = none) →
        e.cloud_mean_pct = none)) ∧
    (∀ e ∈ r.yearly.years,
      (dget st.lightning_yearly (h3fn lat lon st.h3_resolution, e.year) = none →
        e.lightning_count = 0 ∧ e.lightning_probability = 0) ∧
      ((∀ p ∈ sorted_station_distances st dist lat lon,
          p.2 ≤ st.idw_max_distance_km →
          dget st.cloud_yearly (p.1.station_id, e.year) = none) →
        e.cloud_mean_pct = none)) := by
  obtain ⟨-, -, hdays, hms, hys⟩ :=
    query_ok_parts st dist h3fn lat lon year month today_year r hq
  refine ⟨?_, ?_, ?_⟩
  · intro e he
    rw [hdays] at he
    simp only [build_daily_series, List.mem_map] at he
    obtain ⟨d, _, rfl⟩ := he
    constructor
    · intro hnone
      simp only [daily_entry] at hnone ⊢
      rw [hnone]
      rfl
    · intro hcl
      simp only [daily_entry] at hcl ⊢
      exact idw_cloud_value_eq_none st (sorted_station_distances st dist lat lon) _ hcl
  · intro e he
    obtain ⟨m, _, hentry⟩ :=
      mapE_ok_mem (monthly_entry st (h3fn lat lon st.h3_resolution)
        (sorted_station_distances st dist lat lon) year) (rangeInt 1 12)
        r.monthly.months hms e he
    obtain ⟨hmon, hcloud⟩ := monthly_entry_ok _ _ _ _ _ _ hentry
    constructor
    · intro hnone
      rw [hmon] at hnone
      have hdef := monthly_entry_default st (h3fn lat lon st.h3_resolution)
        (sorted_station_distances st dist lat lon) year m hnone
      rw [hentry] at hdef
      cases hdef
      exact ⟨rfl, rfl⟩
    · intro hcl
      rw [hcloud]
      apply idw_cloud_value_eq_none
      intro p hp hpd
      have := hcl p hp hpd
      rw [hmon] at this
      exact this
  · intro e he
    obtain ⟨y, _, hentry⟩ :=
      mapE_ok_mem (yearly_entry st (h3fn lat lon st.h3_resolution)
        (sorted_station_distances st dist lat lon))
        (rangeInt st.start_year (min (max year st.start_year) today_year))
        r.yearly.years hys e he
    obtain ⟨hyr, hcloud⟩ := yearly_entry_ok _ _ _ _ _ hentry
    constructor
    · intro hnone
      rw [hyr] at hnone
      have hdef := yearly_entry_default st (h3fn lat lon st.h3_resolution)
        (sorted_station_distances st dist lat lon) y hnone
      rw [hentry] at hdef
      cases hdef
      exact ⟨rfl, rfl⟩
    · intro hcl
      rw [hcloud]
      apply idw_cloud_value_eq_none
      intro p hp hpd
      have := hcl p hp hpd
      rw [hyr] at this
      exact this

/-- Witness for C4: on the empty fixture store the first monthly entry of a
successful query has lightning count 0, probability 0 and a null cloud
value. -/
theorem c4_witness :
    (query st0 d0 h0 59 18 2025 7 2025).toOption.map
      (fun r => r.monthly.months.head?.map
        (fun e => (e.lightning_count, e.lightning_probability, e.cloud_mean_pct))) =
      some (some (0, 0, none)) := by
  cases hq : query st0 d0 h0 59 18 2025 7 2025 with
  | error e =>
      have hs : (query st0 d0 h0 59 18 2025 7 2025).toOption.isSome = true := by decide
      rw [hq] at hs
      simp [Except.toOption] at hs
  | ok r =>
      have h4 := c4_zero_fill_null_fill st0 d0 h0 59 18 2025 7 2025 r hq
      obtain ⟨-, -, -, hms, -⟩ := query_ok_parts st0 d0 h0 59 18 2025 7 2025 r hq
      have hlen := (build_monthly_parts _ _ _ _ _ hms).1
      cases hh : r.monthly.months with
      | nil => rw [hh] at hlen; cases hlen
      | cons e rest =>
          have he : e ∈ r.monthly.months := by
            rw [hh]
            exact List.mem_cons_self e rest
          obtain ⟨hl, hc⟩ := h4.2.1 e he
          have h1 := hl rfl
          have h2 := hc (by
            intro p hp hpd
            have hsd : sorted_station_distances st0 d0 59 18 = [] := rfl
            rw [hsd] at hp
            cases hp)
          simp [Except.toOption, hh, h1.1, h1.2, h2]

/-- C7: a successful in-bounds query returns a response echoing the input
lat/lon with the resolved hex cell id, an optional nearest-station descriptor
(name and rounded distance of the closest station, absent only when there are
no stations), and three ordered series keyed by date, month 1..12 and year
respectively.  (The committed `schemas.py` does not match this constructed
shape; see the C7 entry of the results.) -/
theorem c7_response_shape (st : MetricsStore) (dist : ℚ → ℚ → ℚ → ℚ → ℚ)
    (h3fn : ℚ → ℚ → ℕ → String) (lat lon : ℚ) (year month today_year : ℤ)
    (r : PointMetricsResponse)
    (hb : is_point_in_bounds st lat lon = true)
    (hq : query st dist h3fn lat lon year month today_year = .ok r) :
    r.point.lat = lat ∧ r.point.lon = lon ∧
    r.point.h3_r7 = h3fn lat lon st.h3_resolution ∧
    r.cloud_interpolation =
      (match sorted_station_distances st dist lat lon with
        | [] => none
        | (s, d) :: _ => some ⟨s.name, round2 d⟩) ∧
    r.daily.days.map (fun e => e.date) =
      List.map (fun d => date_str year month d) (rangeInt 1 (days_in_month year month)) ∧
    r.monthly.months.map (fun e => e.month) = rangeInt 1 12 ∧
    r.yearly.years.map (fun e => e.year) =
      rangeInt st.start_year (min (max year st.start_year) today_year) := by
  obtain ⟨hpt, hinfo, hdays, hms, hys⟩ :=
    query_ok_parts st dist h3fn lat lon year month today_year r hq
  refine ⟨by rw [hpt], by rw [hpt], by rw [hpt], hinfo, ?_,
    (build_monthly_parts _ _ _ _ _ hms).2, (build_yearly_parts _ _ _ _ _ _ hys).2⟩
  rw [hdays]
  exact (build_daily_parts st (h3fn lat lon st.h3_resolution)
    (sorted_station_distances st dist lat lon) year month).2

/-- Witness for C7: the in-bounds fixture query echoes lat/lon and the
resolved cell, with no station descriptor on the empty store. -/
theorem c7_witness :
    (query st0 d0 h0 59 18 2025 7 2025).toOption.map
      (fun r => (r.point.lat, r.point.lon, r.point.h3_r7, r.cloud_interpolation)) =
      some (59, 18, "cell", none) := by
  cases hq : query st0 d0 h0 59 18 2025 7 2025 with
  | error e =>
      have hs : (query st0 d0 h0 59 18 2025 7 2025).toOption.isSome = true := by decide
      rw [hq] at hs
      simp [Except.toOption] at hs
  | ok r =>
      have h7 := c7_response_shape st0 d0 h0 59 18 2025 7 2025 r (by decide) hq
      obtain ⟨ha, hb', hc, hd, -, -, -⟩ := h7
      have hsd : sorted_station_distances st0 d0 59 18 = [] := rfl
      rw [hsd] at hd
      simp [Except.toOption, ha, hb', hc, hd, h0]

/-- C6 counterexample: two calls on the same store with identical indices,
configuration and parameters return different responses when the current
calendar year differs between the calls (the yearly series is clamped to the
clock), refuting purity in (indices, params) alone. -/
theorem c6_counterexample :
    (query st0 d0 h0 59 18 2026 6 2024).toOption ≠
      (query st0 d0 h0 59 18 2026 6 2025).toOption := by decide

/-- C6 (amended): a query is a pure function of the loaded indices, the
configuration and the query parameters TOGETHER WITH the current calendar
year: two calls on stores whose fields all agree, with equal parameters and
equal current year, return equal responses (stores are immutable values in
this model, so no call mutates them). -/
theorem c6_query_deterministic (st1 st2 : MetricsStore) (dist : ℚ → ℚ → ℚ → ℚ → ℚ)
    (h3fn : ℚ → ℚ → ℕ → String) (lat lon : ℚ) (year month today_year : ℤ)
    (h1 : st1.stations = st2.stations)
    (h2 : st1.lightning_daily = st2.lightning_daily)
    (h3 : st1.lightning_monthly = st2.lightning_monthly)
    (h4 : st1.lightning_yearly = st2.lightning_yearly)
    (h5 : st1.cloud_daily = st2.cloud_daily)
    (h6 : st1.cloud_monthly = st2.cloud_monthly)
    (h7 : st1.cloud_yearly = st2.cloud_yearly)
    (h8 : st1.start_year = st2.start_year)
    (h9 : st1.h3_resolution = st2.h3_resolution)
    (h10 : st1.bounds = st2.bounds)
    (h11 : st1.idw_power = st2.idw_power)
    (h12 : st1.idw_max_neighbors = st2.idw_max_neighbors)
    (h13 : st1.idw_max_distance_km = st2.idw_max_distance_km) :
    query st1 dist h3fn lat lon year month today_year =
      query st2 dist h3fn lat lon year month today_year := by
  have hst : st1 = st2 := by
    cases st1
    cases st2
    simp_all
  rw [hst]

/-- Witness for C6 (amended) at the fixture store and parameters. -/
theorem c6_witness :
    query st0 d0 h0 59 18 2024 6 2025 = query st0 d0 h0 59 18 2024 6 2025 :=
  c6_query_deterministic st0 st0 d0 h0 59 18 2024 6 2025
    rfl rfl rfl rfl rfl rfl rfl rfl rfl rfl rfl rfl rfl

/-! Helper lemmas for the loader claims. -/

theorem dictFold_skip {α K V : Type} [DecidableEq K] (parse : α → Option (K × V))
    (bad : α) (hbad : parse bad = none) :
    ∀ (pre post : List α) (acc : List (K × V)),
    dictFold parse (pre ++ bad :: post) acc = dictFold parse (pre ++ post) acc := by
  intro pre
  induction pre with
  | nil =>
      intro post acc
      simp only [List.nil_append, dictFold, hbad]
  | cons a pre' ih =>
      intro post acc
      simp only [List.cons_append, dictFold]
      cases hpa : parse a with
      | none => exact ih post acc
      | some kv =>
          obtain ⟨k, v⟩ := kv
          exact ih post (upsert acc k v)

theorem load_jsonl_append (l1 l2 : List Json) :
    load_jsonl (some (l1 ++ l2)) = load_jsonl (some l1) ++ load_jsonl (some l2) := by
  simp [load_jsonl, List.filterMap_append]

theorem load_jsonl_cons_obj (row : List (String × Json)) (l : List Json) :
    load_jsonl (some (Json.obj row :: l)) = row :: load_jsonl (some l) := rfl

theorem lightning_daily_go_skip (bad : List (String × Json))
    (hb : lightning_daily_row bad = .ok none) :
    ∀ (pre post : List (List (String × Json))) (acc : List ((String × String) × ℤ)),
    lightning_daily_go (pre ++ bad :: post) acc = lightning_daily_go (pre ++ post) acc := by
  intro pre
  induction pre with
  | nil =>
      intro post acc
      simp only [List.nil_append, lightning_daily_go, hb]
  | cons a pre' ih =>
      intro post acc
      simp only [List.cons_append, lightning_daily_go]
      cases ha : lightning_daily_row a with
      | error e => rfl
      | ok o =>
          cases o with
          | none => exact ih post acc
          | some kv =>
              obtain ⟨k, v⟩ := kv
              exact ih post (upsert acc k v)

theorem lightning_daily_row_skipped (row : List (String × Json))
    (hcoerce : ∃ n, pyIntE ((jget row "strike_count").getD (.num 0)) = .ok n)
    (hkey : strField row "h3" = "" ∨ strField row "date" = "") :
    lightning_daily_row row = .ok none := by
  obtain ⟨n, hn⟩ := hcoerce
  unfold lightning_daily_row
  rw [hn]
  simp only [if_pos hkey]

/-- C2 counterexample: `_load_lightning_daily` raises (rather than skipping)
on a record whose `strike_count` is not int-coercible, because it uses bare
`int(...)` instead of the lenient `as_int`; loading such a present file
aborts instead of producing a mapping. -/
theorem c2_counterexample :
    (load_lightning_daily (some [Json.obj
      [("h3", Json.str "a"), ("date", Json.str "2025-01-01"),
        ("strike_count", Json.str "x")]])).toOption = none := by decide

/-- C2 (amended): a missing file yields an empty mapping for all six
aggregate loaders; malformed records (non-object rows, rows with a missing
or empty required field, rows with a non-coercible required number) are
skipped without raising by five of the six loaders — lightning monthly,
lightning yearly, cloud daily, cloud monthly and cloud yearly, whose numeric
coercion is the exception-catching `as_int`/`as_float`; the lightning daily
loader skips non-object lines and records with a missing `h3`/`date` whose
`strike_count` is int-coercible, but raises on any record whose
`strike_count` is not int-coercible (see the counterexample). -/
theorem c2_loader_tolerance :
    (load_lightning_daily none = .ok [] ∧ load_lightning_monthly none = [] ∧
      load_lightning_yearly none = [] ∧ load_cloud_daily none = [] ∧
      load_cloud_monthly none = [] ∧ load_cloud_yearly none = []) ∧
    (∀ (pre post : List Json) (bad : Json),
      (parse_lightning_monthly bad = none →
        load_lightning_monthly (some (.arr (pre ++ bad :: post))) =
          load_lightning_monthly (some (.arr (pre ++ post)))) ∧
      (parse_lightning_yearly bad = none →
        load_lightning_yearly (some (.arr (pre ++ bad :: post))) =
          load_lightning_yearly (some (.arr (pre ++ post)))) ∧
      (parse_cloud_monthly bad = none →
        load_cloud_monthly (some (.arr (pre ++ bad :: post))) =
          load_cloud_monthly (some (.arr (pre ++ post)))) ∧
      (parse_cloud_yearly bad = none →
        load_cloud_yearly (some (.arr (pre ++ bad :: post))) =
          load_cloud_yearly (some (.arr (pre ++ post)))) ∧
      ((∀ row, bad = .obj row → parse_cloud_daily row = none) →
        load_cloud_daily (some (pre ++ bad :: post)) =
          load_cloud_daily (some (pre ++ post))) ∧
      ((∀ row, bad = .obj row →
          (∃ n, pyIntE ((jget row "strike_count").getD (.num 0)) = .ok n) ∧
          (strField row "h3" = "" ∨ strField row "date" = "")) →
        load_lightning_daily (some (pre ++ bad :: post)) =
          load_lightning_daily (some (pre ++ post)))) := by
  refine ⟨⟨rfl, rfl, rfl, rfl, rfl, rfl⟩, ?_⟩
  intro pre post bad
  refine ⟨?_, ?_, ?_, ?_, ?_, ?_⟩
  · intro hbad
    simp only [load_lightning_monthly]
    exact dictFold_skip parse_lightning_monthly bad hbad pre post []
  · intro hbad
    simp only [load_lightning_yearly]
    exact dictFold_skip parse_lightning_yearly bad hbad pre post []
  · intro hbad
    simp only [load_cloud_monthly]
    exact dictFold_skip parse_cloud_monthly bad hbad pre post []
  · intro hbad
    simp only [load_cloud_yearly]
    exact dictFold_skip parse_cloud_yearly bad hbad pre post []
  · intro hbad
    cases bad with
    | obj row =>
        simp only [load_cloud_daily, load_jsonl_append, load_jsonl_cons_obj]
        have h2 : load_jsonl (some post) = [] ++ load_jsonl (some post) := rfl
        rw [show load_jsonl (some pre) ++ row :: load_jsonl (some post) =
            load_jsonl (some pre) ++ row :: ([] ++ load_jsonl (some post)) from rfl]
        have := dictFold_skip parse_cloud_daily row (hbad row rfl)
          (load_jsonl (some pre)) (load_jsonl (some post)) []
        simpa using this
    | null =>
        have : load_jsonl (some (pre ++ Json.null :: post)) =
            load_jsonl (some (pre ++ post)) := by
          simp [load_jsonl, List.filterMap_append]
        simp only [load_cloud_daily, this]
    | bool b =>
        have : load_jsonl (some (pre ++ Json.bool b :: post)) =
            load_jsonl (some (pre ++ post)) := by
          simp [load_jsonl, List.filterMap_append]
        simp only [load_cloud_daily, this]
    | num q =>
        have : load_jsonl (some (pre ++ Json.num q :: post)) =
            load_jsonl (some (pre ++ post)) := by
          simp [load_jsonl, List.filterMap_append]
        simp only [load_cloud_daily, this]
    | str s =>
        have : load_jsonl (some (pre ++ Json.str s :: post)) =
            load_jsonl (some (pre ++ post)) := by
          simp [load_jsonl, List.filterMap_append]
        simp only [load_cloud_daily, this]
    | arr items =>
        have : load_jsonl (some (pre ++ Json.arr items :: post)) =
            load_jsonl (some (pre ++ post)) := by
          simp [load_jsonl, List.filterMap_append]
        simp only [load_cloud_daily, this]
  · intro hbad
    cases bad with
    | obj row =>
        have hrow := lightning_daily_row_skipped row (hbad row rfl).1 (hbad row rfl).2
        simp only [load_lightning_daily, load_jsonl_append, load_jsonl_cons_obj]
        have := lightning_daily_go_skip row hrow
          (load_jsonl (some pre)) (load_jsonl (some post)) []
        simpa using this
    | null =>
        have : load_jsonl (some (pre ++ Json.null :: post)) =
            load_jsonl (some (pre ++ post)) := by
          simp [load_jsonl, List.filterMap_append]
        simp only [load_lightning_daily, this]
    | bool b =>
        have : load_jsonl (some (pre ++ Json.bool b :: post)) =
            load_jsonl (some (pre ++ post)) := by
          simp [load_jsonl, List.filterMap_append]
        simp only [load_lightning_daily, this]
    | num q =>
        have : load_jsonl (some (pre ++ Json.num q :: post)) =
            load_jsonl (some (pre ++ post)) := by
          simp [load_jsonl, List.filterMap_append]
        simp only [load_lightning_daily, this]
    | str s =>
        have : load_jsonl (some (pre ++ Json.str s :: post)) =
            load_jsonl (some (pre ++ post)) := by
          simp [load_jsonl, List.filterMap_append]
        simp only [load_lightning_daily, this]
    | arr items =>
        have : load_jsonl (some (pre ++ Json.arr items :: post)) =
            load_jsonl (some (pre ++ post)) := by
          simp [load_jsonl, List.filterMap_append]
        simp only [load_lightning_daily, this]

/-- Witness for C2 (amended): concrete skipped records — a non-object row in
each lenient array loader and in the cloud daily loader, and an object with a
coercible `strike_count` but no `h3`/`date` in the lightning daily loader. -/
theorem c2_witness :
    load_lightning_monthly (some (.arr [Json.str "junk"])) =
      load_lightning_monthly (some (.arr [])) ∧
    load_lightning_yearly (some (.arr [Json.str "junk"])) =
      load_lightning_yearly (some (.arr [])) ∧
    load_cloud_monthly (some (.arr [Json.str "junk"])) =
      load_cloud_monthly (some (.arr [])) ∧
    load_cloud_yearly (some (.arr [Json.str "junk"])) =
      load_cloud_yearly (some (.arr [])) ∧
    load_cloud_daily (some [Json.str "junk"]) = load_cloud_daily (some []) ∧
    load_lightning_daily (some [Json.obj [("strike_count", Json.num 3)]]) =
      load_lightning_daily (some []) := by
  have h := c2_loader_tolerance.2 [] [] (Json.str "junk")
  have h6 := c2_loader_tolerance.2 [] [] (Json.obj [("strike_count", Json.num 3)])
  refine ⟨h.1 (by rfl), h.2.1 (by rfl), h.2.2.1 (by rfl), h.2.2.2.1 (by rfl),
    h.2.2.2.2.1 (by intro row hrow; cases hrow), h6.2.2.2.2.2 ?_⟩
  intro row hrow
  cases hrow
  exact ⟨⟨3, by rfl⟩, Or.inl rfl⟩

end WeatherEval
